import Mathlib

/-!
Shallow embedding of `scripts/prepare.py` (Bilibili video downloader and
frame extractor).

The script is a sequence of subprocess invocations and filesystem checks.
We model the external environment (which tools are installed, how each
subprocess run ends, what the filesystem contains at each observation
point) as a record `World` of inputs, and translate each Python function
into a Lean function over that record.  Each function additionally returns
the list of external invocations it performed (`Event`), so that claims of
the form "the extraction tool is never invoked" become statements about the
trace.

Encoding choices, matching the source:
  * `subprocess.run(cmd, check=True)` succeeds iff the process ran and
    exited 0; a nonzero exit raises `CalledProcessError` and any other
    failure raises some exception, and both are caught and turned into
    `False` by the callers.  A single `Bool` per run site therefore
    captures exactly the distinction the code observes.
  * The `yt_dlp --version` probe distinguishes three outcomes the code
    treats differently in structure (returncode 0 accepted inside `try`;
    nonzero falls through; exception/timeout caught by `except`), so it
    gets a three-way `ProbeOutcome`.
  * `os.path.exists(video_path)` at the pre-extraction check is a free
    field `videoExists`: the code merely reads the filesystem there.
  * `os.listdir(output_dir)` after the ffmpeg run is the field `listing`.
  * `args.fps` is a float used only inside the string `f"fps={fps}"`; we
    carry its decimal rendering as a `String`.
  * `os.path.join` is modelled for the POSIX separator with a relative
    second component, the only way the script calls it.
-/

/-- Outcome of the `[sys.executable, "-m", "yt_dlp", "--version"]` probe:
the process exited 0, exited nonzero, or the call raised (including a
timeout). -/
inductive ProbeOutcome where
  | ok
  | exitNonzero
  | exc
deriving DecidableEq, Repr

/-- The external environment a single run of the script observes. -/
structure World where
  /-- `sys.executable`. -/
  pythonExe : String
  /-- Whether `shutil.which("yt-dlp")` finds the executable. -/
  ytDlpOnPath : Bool
  /-- Outcome of the yt-dlp module version probe. -/
  moduleProbe : ProbeOutcome
  /-- Whether `shutil.which("ffmpeg")` finds the executable. -/
  ffmpegOnPath : Bool
  /-- `os.path.exists` on the hard-coded Windows ffmpeg paths. -/
  winPathExists : String → Bool
  /-- Whether the yt-dlp download subprocess runs and exits 0. -/
  downloadRunOk : Bool
  /-- `os.path.exists(video_path)` at the pre-extraction check. -/
  videoExists : Bool
  /-- Whether the ffmpeg subprocess runs and exits 0. -/
  ffmpegRunOk : Bool
  /-- `os.listdir(output_dir)` after the ffmpeg run. -/
  listing : List String

/-- External actions performed by a run: entering the acquire step
(`download_video` called), running the downloader subprocess, entering the
sample step (`extract_frames` called), running the extraction subprocess. -/
inductive Event where
  | acquireStep
  | downloaderRun (cmd : List String)
  | sampleStep
  | extractorRun (cmd : List String)
deriving DecidableEq, Repr

/-- Python's `s.startswith(pre)`: `pre` is a character-level prefix of
`s`. -/
def strStartsWith (s pre : String) : Bool :=
  pre.toList.isPrefixOf s.toList

/-- Python's `s.endswith(suf)`: `suf` is a character-level suffix of
`s`. -/
def strEndsWith (s suf : String) : Bool :=
  suf.toList.isSuffixOf s.toList

/-- `os.path.join(a, b)` for a relative, non-empty second component on a
POSIX system. -/
def pathJoin (a b : String) : String :=
  if a = "" then b
  else if strEndsWith a "/" then a ++ b
  else a ++ "/" ++ b

/-- `find_yt_dlp`: direct command if on the search path, else the module
form if the version probe exits 0, else `none` (the probe falling through
on nonzero exit, or raising / timing out, both end at `return None`). -/
def find_yt_dlp (w : World) : Option (List String) :=
  if w.ytDlpOnPath then
    some ["yt-dlp"]
  else
    match w.moduleProbe with
    | ProbeOutcome.ok => some [w.pythonExe, "-m", "yt_dlp"]
    | ProbeOutcome.exitNonzero => none
    | ProbeOutcome.exc => none

/-- The hard-coded fallback install locations checked by `find_ffmpeg`. -/
def commonFfmpegPaths : List String :=
  ["C:\\ffmpeg\\bin\\ffmpeg.exe",
   "C:\\Program Files\\ffmpeg\\bin\\ffmpeg.exe",
   "C:\\tools\\ffmpeg\\bin\\ffmpeg.exe"]

/-- `find_ffmpeg`: `"ffmpeg"` if on the search path, else the first of the
hard-coded Windows paths that exists, else `none`. -/
def find_ffmpeg (w : World) : Option String :=
  if w.ffmpegOnPath then some "ffmpeg"
  else commonFfmpegPaths.find? w.winPathExists

/-- The yt-dlp `-f` format-selection argument used by `download_video`. -/
def ytFormatSpec : String :=
  "bestvideo[ext=mp4]+bestaudio[ext=m4a]/best[ext=mp4]/best"

/-- Result of `download_video`: the returned boolean and the external
invocations performed. -/
structure DownloadResult where
  success : Bool
  events : List Event
deriving DecidableEq, Repr

/-- `download_video(url, output_path)`: locate yt-dlp (returning `False`
if absent), build the command and run it; `True` iff the run exits 0,
every raised exception being caught and turned into `False`. -/
def download_video (w : World) (url : String) (output_path : String) :
    DownloadResult :=
  match find_yt_dlp w with
  | none => ⟨false, [Event.acquireStep]⟩
  | some yt_dlp_cmd =>
      let cmd := yt_dlp_cmd ++
        ["-f", ytFormatSpec, "-o", output_path, "--no-warnings", url]
      ⟨w.downloadRunOk, [Event.acquireStep, Event.downloaderRun cmd]⟩

/-- The count printed by `extract_frames`: files in the listing that start
with `"frame_"` and end with `".jpg"`. -/
def countFrameFiles (files : List String) : Nat :=
  (files.filter (fun f => strStartsWith f "frame_" && strEndsWith f ".jpg")).length

/-- Result of `extract_frames`: the returned boolean, the external
invocations performed, and the frame count it reports on success. -/
structure SampleResult where
  success : Bool
  events : List Event
  reported : Option Nat
deriving DecidableEq, Repr

/-- `extract_frames(video_path, output_dir, fps)`: locate ffmpeg
(returning `False` if absent), ensure the output directory exists, run
ffmpeg with the fps filter, quality 2, `-y` and the `frame_%04d.jpg`
pattern; on exit 0 count and report the generated images, on any raised
exception return `False`. -/
def extract_frames (w : World) (video_path : String) (output_dir : String)
    (fps : String) : SampleResult :=
  match find_ffmpeg w with
  | none => ⟨false, [Event.sampleStep], none⟩
  | some ffmpeg_cmd =>
      let output_pattern := pathJoin output_dir "frame_%04d.jpg"
      let cmd := [ffmpeg_cmd, "-i", video_path, "-vf", "fps=" ++ fps,
                  "-q:v", "2", "-y", output_pattern]
      if w.ffmpegRunOk then
        ⟨true, [Event.sampleStep, Event.extractorRun cmd],
         some (countFrameFiles w.listing)⟩
      else
        ⟨false, [Event.sampleStep, Event.extractorRun cmd], none⟩

/-- The parsed command line: positional `url`, `--output` (default
`"."`), `--fps` (default 1.0, carried as its decimal rendering),
`--video-only` and `--frames-only` flags. -/
structure Args where
  url : String
  output : String
  fps : String
  video_only : Bool
  frames_only : Bool
deriving DecidableEq, Repr

/-- `video_path = os.path.join(output_dir, "video.mp4")`. -/
def videoPathOf (output : String) : String := pathJoin output "video.mp4"

/-- `images_dir = os.path.join(output_dir, "images")`. -/
def imagesDirOf (output : String) : String := pathJoin output "images"

/-- Result of a whole run: the process exit status, the external
invocations, and whether the final success summary was printed. -/
structure RunResult where
  exitCode : Nat
  events : List Event
  summary : Bool
deriving DecidableEq, Repr

/-- The part of `main` after the download phase: skip extraction under
`--video-only`; otherwise abort with status 1 if the video file does not
exist, else run `extract_frames` and abort with status 1 on failure; on
reaching the end print the summary and exit 0. -/
def mainAfterDownload (w : World) (a : Args) (video_path : String)
    (images_dir : String) (tr : List Event) : RunResult :=
  if a.video_only then
    ⟨0, tr, true⟩
  else if !w.videoExists then
    ⟨1, tr, false⟩
  else
    let e := extract_frames w video_path images_dir a.fps
    if e.success then
      ⟨0, tr ++ e.events, true⟩
    else
      ⟨1, tr ++ e.events, false⟩

/-- `main`: derive the paths from the output directory, download unless
`--frames-only` (aborting with status 1 on failure), then the extraction
phase. -/
def mainRun (w : World) (a : Args) : RunResult :=
  let video_path := videoPathOf a.output
  let images_dir := imagesDirOf a.output
  if a.frames_only then
    mainAfterDownload w a video_path images_dir []
  else
    let d := download_video w a.url video_path
    if d.success then
      mainAfterDownload w a video_path images_dir d.events
    else
      ⟨1, d.events, false⟩

/-- The spec-side frame naming pattern `frame_NNNN.jpg`: exactly four
digits between the fixed stem and the fixed extension.  Stated from the
spec's words for comparison with the count the code computes. -/
def specFramePattern (f : String) : Bool :=
  strStartsWith f "frame_" && strEndsWith f ".jpg" && f.length == 14 &&
    ((f.toList.drop 6).take 4).all Char.isDigit

/-- Number of listing entries matching the spec-side pattern. -/
def countSpecFrames (files : List String) : Nat :=
  (files.filter specFramePattern).length

/-- An environment in which both tools are on the search path and every
subprocess succeeds. -/
def wAllGood : World :=
  { pythonExe := "/usr/bin/python3"
    ytDlpOnPath := true
    moduleProbe := ProbeOutcome.exitNonzero
    ffmpegOnPath := true
    winPathExists := fun _ => false
    downloadRunOk := true
    videoExists := true
    ffmpegRunOk := true
    listing := ["frame_0001.jpg", "frame_0002.jpg"] }

/-- Default full-pipeline arguments. -/
def aFull : Args :=
  { url := "https://www.bilibili.com/video/BV1xx411c7mD"
    output := "."
    fps := "1.0"
    video_only := false
    frames_only := false }

/-- `aFull` with the `--frames-only` flag. -/
def aFramesOnly : Args := { aFull with frames_only := true }

/-- `aFull` with the `--video-only` flag. -/
def aVideoOnly : Args := { aFull with video_only := true }

/-- `aFull` with both skip flags. -/
def aBothFlags : Args := { aFull with video_only := true, frames_only := true }

/-- `wAllGood` but the video file is absent at the pre-extraction check. -/
def wNoVideo : World := { wAllGood with videoExists := false }

/-- `wAllGood` but yt-dlp is neither on the search path nor usable as a
module (the probe raises). -/
def wNoYtDlp : World :=
  { wAllGood with ytDlpOnPath := false, moduleProbe := ProbeOutcome.exc }

/-- `wAllGood` with a directory listing that mixes a `frame_NNNN.jpg` file
with a file that merely starts with `frame_` and ends with `.jpg`. -/
def wMixedListing : World :=
  { wAllGood with listing := ["frame_0001.jpg", "frame_oops.jpg"] }

/-- `download_video` always performs the acquire step. -/
theorem download_acquire_mem (w : World) (u p : String) :
    Event.acquireStep ∈ (download_video w u p).events := by
  unfold download_video
  cases find_yt_dlp w <;> simp

/-- `download_video` never performs the sample step. -/
theorem download_no_sample_mem (w : World) (u p : String) :
    Event.sampleStep ∉ (download_video w u p).events := by
  unfold download_video
  cases find_yt_dlp w <;> simp

/-- `download_video` never runs the extraction tool. -/
theorem download_no_extractor_mem (w : World) (u p : String)
    (c : List String) : Event.extractorRun c ∉ (download_video w u p).events := by
  unfold download_video
  cases find_yt_dlp w <;> simp

/-- Any extraction-tool invocation recorded by `extract_frames` is the one
ffmpeg command it builds. -/
theorem extract_run_cmd (w : World) (vp dir fps : String) (c : List String)
    (h : Event.extractorRun c ∈ (extract_frames w vp dir fps).events) :
    ∃ ff, find_ffmpeg w = some ff ∧
      c = [ff, "-i", vp, "-vf", "fps=" ++ fps, "-q:v", "2", "-y",
           pathJoin dir "frame_%04d.jpg"] := by
  cases hf : find_ffmpeg w with
  | none => simp [extract_frames, hf] at h
  | some ff =>
      refine ⟨ff, rfl, ?_⟩
      by_cases hr : w.ffmpegRunOk <;> simp [extract_frames, hf, hr] at h <;>
        exact h

/-- If `extract_frames` runs the extraction tool at all, it has performed
the sample step. -/
theorem extract_sample_mem (w : World) (vp dir fps : String) :
    Event.sampleStep ∈ (extract_frames w vp dir fps).events := by
  unfold extract_frames
  cases find_ffmpeg w <;> [skip; by_cases hr : w.ffmpegRunOk] <;> simp [*]

/-- C7: the downloader locator returns the direct command when the tool is
on the executable search path; otherwise it returns the runtime-module
invocation form iff the version probe exits 0, and signals not-found iff
the probe does not exit 0 (a nonzero exit, an exception or a timeout). -/
theorem find_yt_dlp_resolution (w : World) :
    (w.ytDlpOnPath = true → find_yt_dlp w = some ["yt-dlp"]) ∧
    (w.ytDlpOnPath = false →
      ((find_yt_dlp w = some [w.pythonExe, "-m", "yt_dlp"]) ↔
        w.moduleProbe = ProbeOutcome.ok) ∧
      ((find_yt_dlp w = none) ↔ w.moduleProbe ≠ ProbeOutcome.ok)) := by
  cases hy : w.ytDlpOnPath <;> cases hp : w.moduleProbe <;>
    simp [find_yt_dlp, hy, hp]

/-- C10: with both skip flags the run performs no step, never reads the
video-file existence bit (the result is the same constant in every
environment), prints the summary and exits 0. -/
theorem both_flags_noop (w : World) (a : Args) (h1 : a.frames_only = true)
    (h2 : a.video_only = true) :
    mainRun w a = ⟨0, [], true⟩ := by
  simp [mainRun, mainAfterDownload, h1, h2]

/-- Witness for C10 at a concrete environment and both flags. -/
theorem both_flags_noop_witness :
    mainRun wAllGood aBothFlags = ⟨0, [], true⟩ :=
  both_flags_noop wAllGood aBothFlags (by decide) (by decide)

/-- C4: in extract-only mode with the video file absent, the run exits
nonzero and the extraction tool is never invoked. -/
theorem frames_only_missing_video (w : World) (a : Args)
    (h1 : a.frames_only = true) (h2 : a.video_only = false)
    (h3 : w.videoExists = false) :
    (mainRun w a).exitCode ≠ 0 ∧
      ∀ c, Event.extractorRun c ∉ (mainRun w a).events := by
  simp [mainRun, mainAfterDownload, h1, h2, h3]

/-- Witness for C4 at a concrete environment in extract-only mode. -/
theorem frames_only_missing_video_witness :
    (mainRun wNoVideo aFramesOnly).exitCode ≠ 0 ∧
      ∀ c, Event.extractorRun c ∉ (mainRun wNoVideo aFramesOnly).events :=
  frames_only_missing_video wNoVideo aFramesOnly (by decide) (by decide)
    (by decide)

/-- C5: in download-only mode, the acquire step is performed and the
sample step and the extraction tool never are, in every environment (in
particular whether or not the video file exists afterwards). -/
theorem video_only_skips_sample (w : World) (a : Args)
    (h1 : a.video_only = true) (h2 : a.frames_only = false) :
    Event.acquireStep ∈ (mainRun w a).events ∧
      Event.sampleStep ∉ (mainRun w a).events ∧
      ∀ c, Event.extractorRun c ∉ (mainRun w a).events := by
  cases hd : (download_video w a.url (videoPathOf a.output)).success <;>
    simp [mainRun, mainAfterDownload, h1, h2, hd, download_acquire_mem,
      download_no_sample_mem, download_no_extractor_mem]

/-- Witness for C5 at a concrete environment where the video file does not
exist after the download. -/
theorem video_only_skips_sample_witness :
    Event.acquireStep ∈ (mainRun wNoVideo aVideoOnly).events ∧
      Event.sampleStep ∉ (mainRun wNoVideo aVideoOnly).events ∧
      ∀ c, Event.extractorRun c ∉ (mainRun wNoVideo aVideoOnly).events :=
  video_only_skips_sample wNoVideo aVideoOnly (by decide) (by decide)

/-- C6: when yt-dlp is neither on the search path nor accepted as a
module, the acquire step returns failure (it is a total function, so it
raises nothing), and a run that includes it exits 1 without ever invoking
the extraction tool. -/
theorem no_downloader_aborts_run (w : World) (a : Args)
    (h1 : w.ytDlpOnPath = false) (h2 : w.moduleProbe ≠ ProbeOutcome.ok)
    (h3 : a.frames_only = false) :
    (download_video w a.url (videoPathOf a.output)).success = false ∧
      (mainRun w a).exitCode = 1 ∧
      ∀ c, Event.extractorRun c ∉ (mainRun w a).events := by
  have hfind : find_yt_dlp w = none := by
    cases hp : w.moduleProbe
    · exact absurd hp h2
    · simp [find_yt_dlp, h1, hp]
    · simp [find_yt_dlp, h1, hp]
  have hdl : (download_video w a.url (videoPathOf a.output)).success = false := by
    simp [download_video, hfind]
  refine ⟨hdl, ?_⟩
  simp [mainRun, h3, hdl, download_no_extractor_mem]

/-- Witness for C6 at a concrete environment where the module probe
raises. -/
theorem no_downloader_aborts_run_witness :
    (download_video wNoYtDlp aFull.url (videoPathOf aFull.output)).success
        = false ∧
      (mainRun wNoYtDlp aFull).exitCode = 1 ∧
      ∀ c, Event.extractorRun c ∉ (mainRun wNoYtDlp aFull).events :=
  no_downloader_aborts_run wNoYtDlp aFull (by decide) (by decide) (by decide)

/-- C1: in every mode, the sample step runs only if the video file exists
at the expected path at the pre-extraction check; when the file is absent
the extraction tool is never invoked and, whenever the step was about to
run (extraction not skipped and the download phase passed), the run aborts
with status 1. -/
theorem sample_requires_existing_video (w : World) (a : Args) :
    (Event.sampleStep ∈ (mainRun w a).events → w.videoExists = true) ∧
    (w.videoExists = false →
      (∀ c, Event.extractorRun c ∉ (mainRun w a).events) ∧
      (a.video_only = false →
        (a.frames_only = true ∨
          (download_video w a.url (videoPathOf a.output)).success = true) →
        (mainRun w a).exitCode = 1)) := by
  by_cases hf : a.frames_only <;> by_cases hv : a.video_only <;>
    cases hd : (download_video w a.url (videoPathOf a.output)).success <;>
    cases he : w.videoExists <;>
    simp [mainRun, mainAfterDownload, hf, hv, hd, he,
      download_no_sample_mem, download_no_extractor_mem]

/-- C2 as stated fails: with ffmpeg succeeding and the output directory
listing `frame_0001.jpg` and `frame_oops.jpg`, the step reports 2 images
while only one entry matches the zero-padded `frame_NNNN.jpg` pattern. -/
theorem reported_count_mismatch :
    (extract_frames wMixedListing (videoPathOf ".") (imagesDirOf ".")
        "1.0").success = true ∧
    (extract_frames wMixedListing (videoPathOf ".") (imagesDirOf ".")
        "1.0").reported ≠ some (countSpecFrames wMixedListing.listing) := by
  exact ⟨by decide, by decide⟩

/-- C2 amended: when the extraction tool exits successfully, the reported
count equals the number of files in the listing whose names start with
`frame_` and end with `.jpg` (not necessarily of the four-digit
`frame_NNNN.jpg` form). -/
theorem reported_count_eq_filter (w : World) (vp dir fps : String)
    (h : (extract_frames w vp dir fps).success = true) :
    (extract_frames w vp dir fps).reported
      = some (countFrameFiles w.listing) := by
  cases hf : find_ffmpeg w with
  | none => simp [extract_frames, hf] at h
  | some ff =>
      by_cases hr : w.ffmpegRunOk
      · simp [extract_frames, hf, hr]
      · simp [extract_frames, hf, hr] at h

/-- Witness for the amended C2 at a concrete successful extraction. -/
theorem reported_count_eq_filter_witness :
    (extract_frames wAllGood (videoPathOf ".") (imagesDirOf ".")
        "1.0").reported = some (countFrameFiles wAllGood.listing) :=
  reported_count_eq_filter wAllGood (videoPathOf ".") (imagesDirOf ".")
    "1.0" (by decide)

/-- C3: the exit status is 0 or 1; it is 0 exactly when every step the
mode requires succeeded (the download unless skipped, and — unless
extraction is skipped — the video file being present and the extraction
succeeding); and on a download failure the run stops with status 1 before
the sample step or the extraction tool. -/
theorem exit_status_characterization (w : World) (a : Args) :
    ((mainRun w a).exitCode = 0 ∨ (mainRun w a).exitCode = 1) ∧
    ((mainRun w a).exitCode = 0 ↔
      ((a.frames_only = false →
         (download_video w a.url (videoPathOf a.output)).success = true) ∧
       (a.video_only = false →
         w.videoExists = true ∧
         (extract_frames w (videoPathOf a.output) (imagesDirOf a.output)
            a.fps).success = true))) ∧
    (a.frames_only = false →
      (download_video w a.url (videoPathOf a.output)).success = false →
      (mainRun w a).exitCode = 1 ∧
        Event.sampleStep ∉ (mainRun w a).events ∧
        ∀ c, Event.extractorRun c ∉ (mainRun w a).events) := by
  by_cases hf : a.frames_only <;> by_cases hv : a.video_only <;>
    cases hd : (download_video w a.url (videoPathOf a.output)).success <;>
    cases he : w.videoExists <;>
    cases hs : (extract_frames w (videoPathOf a.output)
      (imagesDirOf a.output) a.fps).success <;>
    simp [mainRun, mainAfterDownload, hf, hv, hd, he, hs,
      download_no_sample_mem, download_no_extractor_mem]

/-- C8: the run derives `video.mp4` and `images` from the output
directory, and every extraction command it issues consists of the resolved
tool, the video path, the `fps` filter at the requested rate, quality `2`,
the overwrite flag `-y`, and the `frame_%04d.jpg` output pattern inside
the images directory. -/
theorem extraction_command_shape (w : World) (a : Args) (c : List String)
    (h : Event.extractorRun c ∈ (mainRun w a).events) :
    videoPathOf a.output = pathJoin a.output "video.mp4" ∧
    imagesDirOf a.output = pathJoin a.output "images" ∧
    ∃ ff, find_ffmpeg w = some ff ∧
      c = [ff, "-i", videoPathOf a.output, "-vf", "fps=" ++ a.fps,
           "-q:v", "2", "-y",
           pathJoin (imagesDirOf a.output) "frame_%04d.jpg"] := by
  refine ⟨rfl, rfl, ?_⟩
  have hmem : Event.extractorRun c ∈
      (extract_frames w (videoPathOf a.output) (imagesDirOf a.output)
        a.fps).events := by
    by_cases hf : a.frames_only <;> by_cases hv : a.video_only <;>
      cases hd : (download_video w a.url (videoPathOf a.output)).success <;>
      cases he : w.videoExists <;>
      cases hs : (extract_frames w (videoPathOf a.output)
        (imagesDirOf a.output) a.fps).success <;>
      simp [mainRun, mainAfterDownload, hf, hv, hd, he, hs,
        download_no_extractor_mem] at h <;>
      exact h
  exact extract_run_cmd w (videoPathOf a.output) (imagesDirOf a.output)
    a.fps c hmem

/-- Witness for C8 at a concrete full-pipeline run. -/
theorem extraction_command_shape_witness :
    videoPathOf aFull.output = pathJoin aFull.output "video.mp4" ∧
    imagesDirOf aFull.output = pathJoin aFull.output "images" ∧
    ∃ ff, find_ffmpeg wAllGood = some ff ∧
      ["ffmpeg", "-i", "./video.mp4", "-vf", "fps=1.0", "-q:v", "2", "-y",
       "./images/frame_%04d.jpg"] =
        [ff, "-i", videoPathOf aFull.output, "-vf", "fps=" ++ aFull.fps,
         "-q:v", "2", "-y",
         pathJoin (imagesDirOf aFull.output) "frame_%04d.jpg"] :=
  extraction_command_shape wAllGood aFull
    ["ffmpeg", "-i", "./video.mp4", "-vf", "fps=1.0", "-q:v", "2", "-y",
     "./images/frame_%04d.jpg"] (by decide)

/-- C9 as stated fails: the code applies no validation to the URL at all;
with yt-dlp available the acquire step accepts the empty URL, forwards it
verbatim to the downloader, and a full run exits 0. -/
theorem empty_url_accepted :
    (download_video wAllGood "" (videoPathOf ".")).success = true ∧
    Event.downloaderRun ["yt-dlp", "-f", ytFormatSpec, "-o",
        videoPathOf ".", "--no-warnings", ""]
      ∈ (download_video wAllGood "" (videoPathOf ".")).events ∧
    (mainRun wAllGood { aFull with url := "" }).exitCode = 0 := by
  exact ⟨by decide, by decide, by decide⟩

/-- C9 amended: the URL undergoes no parsing or validation whatsoever —
every URL string, the empty string included, is forwarded verbatim as the
final downloader argument, and the step's outcome does not depend on it. -/
theorem url_forwarded_unchanged (w : World) (url out : String)
    (c : List String) (h : find_yt_dlp w = some c) :
    (download_video w url out).events =
      [Event.acquireStep, Event.downloaderRun
        (c ++ ["-f", ytFormatSpec, "-o", out, "--no-warnings", url])] ∧
    (download_video w url out).success = w.downloadRunOk := by
  simp [download_video, h]

/-- Witness for the amended C9 at the empty URL. -/
theorem url_forwarded_unchanged_witness :
    (download_video wAllGood "" "video.mp4").events =
      [Event.acquireStep, Event.downloaderRun
        (["yt-dlp"] ++ ["-f", ytFormatSpec, "-o", "video.mp4",
          "--no-warnings", ""])] ∧
    (download_video wAllGood "" "video.mp4").success
      = wAllGood.downloadRunOk :=
  url_forwarded_unchanged wAllGood "" "video.mp4" ["yt-dlp"] (by decide)
